import Mathlib

/-!
Shallow embedding of `pywbem/wbemcli.py`: the interactive-shell wrapper module
around a WBEM connection object.

Modelling choices:
* A call on the connection object (`CONN.<Method>(...)` in Python) is
  represented symbolically by `ConnCall`: the method's name together with the
  positional arguments and the keyword arguments exactly as the wrapper's body
  writes them.  Python `None` is `PyVal.noneV`; a Python value that may be
  `None` is an `Option` in the wrapper's signature and is encoded into `PyVal`
  by the `PyVal.ofOpt*` helpers.
* The global variable `CONN` becomes an explicit argument `conn : Conn`,
  where `Conn` maps a `ConnCall` to the connection's outcome: a result value
  or an error (transport or CIM error, both opaque here).  A Python function
  body that is a bare call statement (no `return`) yields `PyVal.noneV` on
  success, as in Python.
* Opaque CIM objects handed through unchanged (instances, instance paths,
  classes, qualifier declarations, source object paths) are arbitrary `PyVal`s.
-/

namespace Wbemcli

/-- A Python value as far as this module manipulates one. -/
inductive PyVal where
  | noneV
  | str (s : String)
  | bool (b : Bool)
  | int (i : Int)
  | strList (l : List String)
  | obj (id : String)
  deriving DecidableEq

/-- Encoding of a Python string-or-None argument. -/
def PyVal.ofOptStr : Option String → PyVal
  | Option.none => PyVal.noneV
  | Option.some s => PyVal.str s

/-- Encoding of a Python bool-or-None argument. -/
def PyVal.ofOptBool : Option Bool → PyVal
  | Option.none => PyVal.noneV
  | Option.some b => PyVal.bool b

/-- Encoding of a Python property-list-or-None argument. -/
def PyVal.ofOptStrList : Option (List String) → PyVal
  | Option.none => PyVal.noneV
  | Option.some l => PyVal.strList l

/-- The names of the WBEMConnection operation methods invoked by this module. -/
inductive MethodName where
  | EnumerateInstanceNames
  | EnumerateInstances
  | GetInstance
  | ModifyInstance
  | CreateInstance
  | DeleteInstance
  | AssociatorNames
  | Associators
  | ReferenceNames
  | References
  | InvokeMethod
  | EnumerateClassNames
  | EnumerateClasses
  | GetClass
  | ModifyClass
  | CreateClass
  | DeleteClass
  | EnumerateQualifiers
  | GetQualifier
  | SetQualifier
  | DeleteQualifier
  deriving DecidableEq

/-- One invocation of a method on the connection object: the method's name,
the positional arguments, and the keyword arguments, in source order. -/
structure ConnCall where
  method : MethodName
  posArgs : List PyVal
  kwArgs : List (String × PyVal)
  deriving DecidableEq

/-- `True` iff every keyword argument of the call carries the value `None`. -/
def ConnCall.kwValuesAllNone (c : ConnCall) : Bool :=
  c.kwArgs.all fun p => decide (p.2 = PyVal.noneV)

/-! ## The connection call each wrapper body performs (from the source) -/

/-- `CONN.EnumerateInstanceNames(cn, ns)`. -/
def EnumerateInstanceNamesCall (cn : String) (ns : Option String) : ConnCall :=
  { method := MethodName.EnumerateInstanceNames
    posArgs := [PyVal.str cn, PyVal.ofOptStr ns]
    kwArgs := [] }

/-- `CONN.EnumerateInstances(cn, ns, LocalOnly=lo, DeepInheritance=di,
IncludeQualifiers=iq, IncludeClassOrigin=ico, PropertyList=pl)`. -/
def EnumerateInstancesCall (cn : String) (ns : Option String)
    (lo di iq ico : Option Bool) (pl : Option (List String)) : ConnCall :=
  { method := MethodName.EnumerateInstances
    posArgs := [PyVal.str cn, PyVal.ofOptStr ns]
    kwArgs := [("LocalOnly", PyVal.ofOptBool lo),
               ("DeepInheritance", PyVal.ofOptBool di),
               ("IncludeQualifiers", PyVal.ofOptBool iq),
               ("IncludeClassOrigin", PyVal.ofOptBool ico),
               ("PropertyList", PyVal.ofOptStrList pl)] }

/-- `CONN.GetInstance(ip, LocalOnly=lo, IncludeQualifiers=iq,
IncludeClassOrigin=ico, PropertyList=pl)`. -/
def GetInstanceCall (ip : PyVal) (lo iq ico : Option Bool)
    (pl : Option (List String)) : ConnCall :=
  { method := MethodName.GetInstance
    posArgs := [ip]
    kwArgs := [("LocalOnly", PyVal.ofOptBool lo),
               ("IncludeQualifiers", PyVal.ofOptBool iq),
               ("IncludeClassOrigin", PyVal.ofOptBool ico),
               ("PropertyList", PyVal.ofOptStrList pl)] }

/-- `CONN.ModifyInstance(mi, IncludeQualifiers=iq, PropertyList=pl)`. -/
def ModifyInstanceCall (mi : PyVal) (iq : Option Bool)
    (pl : Option (List String)) : ConnCall :=
  { method := MethodName.ModifyInstance
    posArgs := [mi]
    kwArgs := [("IncludeQualifiers", PyVal.ofOptBool iq),
               ("PropertyList", PyVal.ofOptStrList pl)] }

/-- `CONN.CreateInstance(ni)`. -/
def CreateInstanceCall (ni : PyVal) : ConnCall :=
  { method := MethodName.CreateInstance
    posArgs := [ni]
    kwArgs := [] }

/-- `CONN.DeleteInstance(ip)`. -/
def DeleteInstanceCall (ip : PyVal) : ConnCall :=
  { method := MethodName.DeleteInstance
    posArgs := [ip]
    kwArgs := [] }

/-- `CONN.AssociatorNames(op, AssocClass=ac, ResultClass=rc, Role=r,
ResultRole=rr)`. -/
def AssociatorNamesCall (op : PyVal) (ac rc r rr : Option String) : ConnCall :=
  { method := MethodName.AssociatorNames
    posArgs := [op]
    kwArgs := [("AssocClass", PyVal.ofOptStr ac),
               ("ResultClass", PyVal.ofOptStr rc),
               ("Role", PyVal.ofOptStr r),
               ("ResultRole", PyVal.ofOptStr rr)] }

/-- `CONN.Associators(op, AssocClass=ac, ResultClass=rc, Role=r,
ResultRole=rr, IncludeQualifiers=iq, IncludeClassOrigin=ico,
PropertyList=pl)`. -/
def AssociatorsCall (op : PyVal) (ac rc r rr : Option String)
    (iq ico : Option Bool) (pl : Option (List String)) : ConnCall :=
  { method := MethodName.Associators
    posArgs := [op]
    kwArgs := [("AssocClass", PyVal.ofOptStr ac),
               ("ResultClass", PyVal.ofOptStr rc),
               ("Role", PyVal.ofOptStr r),
               ("ResultRole", PyVal.ofOptStr rr),
               ("IncludeQualifiers", PyVal.ofOptBool iq),
               ("IncludeClassOrigin", PyVal.ofOptBool ico),
               ("PropertyList", PyVal.ofOptStrList pl)] }

/-- `CONN.ReferenceNames(op, ResultClass=rc, Role=r)`. -/
def ReferenceNamesCall (op : PyVal) (rc r : Option String) : ConnCall :=
  { method := MethodName.ReferenceNames
    posArgs := [op]
    kwArgs := [("ResultClass", PyVal.ofOptStr rc),
               ("Role", PyVal.ofOptStr r)] }

/-- `CONN.References(op, ResultClass=rc, Role=r, IncludeQualifiers=iq,
IncludeClassOrigin=ico, PropertyList=pl)`. -/
def ReferencesCall (op : PyVal) (rc r : Option String) (iq ico : Option Bool)
    (pl : Option (List String)) : ConnCall :=
  { method := MethodName.References
    posArgs := [op]
    kwArgs := [("ResultClass", PyVal.ofOptStr rc),
               ("Role", PyVal.ofOptStr r),
               ("IncludeQualifiers", PyVal.ofOptBool iq),
               ("IncludeClassOrigin", PyVal.ofOptBool ico),
               ("PropertyList", PyVal.ofOptStrList pl)] }

/-- `CONN.InvokeMethod(mn, op, *params, **kwparams)`. -/
def InvokeMethodCall (mn : String) (op : PyVal) (params : List PyVal)
    (kwparams : List (String × PyVal)) : ConnCall :=
  { method := MethodName.InvokeMethod
    posArgs := [PyVal.str mn, op] ++ params
    kwArgs := kwparams }

/-- `CONN.EnumerateClassNames(ns, ClassName=ns, DeepInheritance=di)`.
Note: the source forwards `ns` — not the wrapper's `cn` parameter — as the
`ClassName` keyword argument, and leaves `cn` unused. -/
def EnumerateClassNamesCall (ns cn : Option String) (di : Option Bool) :
    ConnCall :=
  { method := MethodName.EnumerateClassNames
    posArgs := [PyVal.ofOptStr ns]
    kwArgs := [("ClassName", PyVal.ofOptStr ns),
               ("DeepInheritance", PyVal.ofOptBool di)] }

/-- `CONN.EnumerateClassNames(ns, ClassName=cn, DeepInheritance=di,
LocalOnly=lo, IncludeQualifiers=iq, IncludeClassOrigin=ico)`.
Note: the source's `EnumerateClasses` wrapper invokes the connection's
`EnumerateClassNames` method, not `EnumerateClasses`. -/
def EnumerateClassesCall (ns cn : Option String) (di lo iq ico : Option Bool) :
    ConnCall :=
  { method := MethodName.EnumerateClassNames
    posArgs := [PyVal.ofOptStr ns]
    kwArgs := [("ClassName", PyVal.ofOptStr cn),
               ("DeepInheritance", PyVal.ofOptBool di),
               ("LocalOnly", PyVal.ofOptBool lo),
               ("IncludeQualifiers", PyVal.ofOptBool iq),
               ("IncludeClassOrigin", PyVal.ofOptBool ico)] }

/-- `CONN.GetClass(cn, ns, LocalOnly=lo, IncludeQualifiers=iq,
IncludeClassOrigin=ico, PropertyList=pl)`. -/
def GetClassCall (cn : String) (ns : Option String) (lo iq ico : Option Bool)
    (pl : Option (List String)) : ConnCall :=
  { method := MethodName.GetClass
    posArgs := [PyVal.str cn, PyVal.ofOptStr ns]
    kwArgs := [("LocalOnly", PyVal.ofOptBool lo),
               ("IncludeQualifiers", PyVal.ofOptBool iq),
               ("IncludeClassOrigin", PyVal.ofOptBool ico),
               ("PropertyList", PyVal.ofOptStrList pl)] }

/-- `CONN.ModifyClass(mc, ns)`. -/
def ModifyClassCall (mcl : PyVal) (ns : Option String) : ConnCall :=
  { method := MethodName.ModifyClass
    posArgs := [mcl, PyVal.ofOptStr ns]
    kwArgs := [] }

/-- `CONN.CreateClass(nc, ns)`. -/
def CreateClassCall (nc : PyVal) (ns : Option String) : ConnCall :=
  { method := MethodName.CreateClass
    posArgs := [nc, PyVal.ofOptStr ns]
    kwArgs := [] }

/-- `CONN.DeleteClass(cn, ns)`. -/
def DeleteClassCall (cn : String) (ns : Option String) : ConnCall :=
  { method := MethodName.DeleteClass
    posArgs := [PyVal.str cn, PyVal.ofOptStr ns]
    kwArgs := [] }

/-- `CONN.EnumerateQualifiers(ns)`. -/
def EnumerateQualifiersCall (ns : Option String) : ConnCall :=
  { method := MethodName.EnumerateQualifiers
    posArgs := [PyVal.ofOptStr ns]
    kwArgs := [] }

/-- `CONN.GetQualifier(qn, ns)`. -/
def GetQualifierCall (qn : String) (ns : Option String) : ConnCall :=
  { method := MethodName.GetQualifier
    posArgs := [PyVal.str qn, PyVal.ofOptStr ns]
    kwArgs := [] }

/-- `CONN.SetQualifier(qd, ns)`. -/
def SetQualifierCall (qd : PyVal) (ns : Option String) : ConnCall :=
  { method := MethodName.SetQualifier
    posArgs := [qd, PyVal.ofOptStr ns]
    kwArgs := [] }

/-- `CONN.DeleteQualifier(qn, ns)`. -/
def DeleteQualifierCall (qn : String) (ns : Option String) : ConnCall :=
  { method := MethodName.DeleteQualifier
    posArgs := [PyVal.str qn, PyVal.ofOptStr ns]
    kwArgs := [] }

/-! ## Wrapper semantics

Each wrapper's run: perform the body's connection call and handle its result
as Python does.  A wrapper whose body is `return CONN.X(...)` yields exactly
the connection method's outcome; a wrapper whose body is a bare call
statement yields `None` on success; in both cases an error raised by the
connection method propagates unchanged. -/

/-- An error raised by a connection method (transport error or CIM error),
kept opaque: the wrappers never inspect it. -/
abbrev WbemError := String

/-- The behaviour of the connection object: what each method invocation
returns, or the error it raises. -/
abbrev Conn := ConnCall → Except WbemError PyVal

/-- Wrapper `EnumerateInstanceNames(cn, ns=None)`. -/
def EnumerateInstanceNames (conn : Conn) (cn : String)
    (ns : Option String := Option.none) : Except WbemError PyVal :=
  conn (EnumerateInstanceNamesCall cn ns)

/-- Wrapper `EnumerateInstances(cn, ns=None, lo=None, di=None, iq=None,
ico=None, pl=None)`. -/
def EnumerateInstances (conn : Conn) (cn : String)
    (ns : Option String := Option.none) (lo : Option Bool := Option.none)
    (di : Option Bool := Option.none) (iq : Option Bool := Option.none)
    (ico : Option Bool := Option.none)
    (pl : Option (List String) := Option.none) : Except WbemError PyVal :=
  conn (EnumerateInstancesCall cn ns lo di iq ico pl)

/-- Wrapper `GetInstance(ip, lo=None, iq=None, ico=None, pl=None)`. -/
def GetInstance (conn : Conn) (ip : PyVal) (lo : Option Bool := Option.none)
    (iq : Option Bool := Option.none) (ico : Option Bool := Option.none)
    (pl : Option (List String) := Option.none) : Except WbemError PyVal :=
  conn (GetInstanceCall ip lo iq ico pl)

/-- Wrapper `ModifyInstance(mi, iq=None, pl=None)`: bare call statement,
so the wrapper itself returns `None` on success. -/
def ModifyInstance (conn : Conn) (mi : PyVal)
    (iq : Option Bool := Option.none)
    (pl : Option (List String) := Option.none) : Except WbemError PyVal :=
  match conn (ModifyInstanceCall mi iq pl) with
  | Except.ok _ => Except.ok PyVal.noneV
  | Except.error e => Except.error e

/-- Wrapper `CreateInstance(ni)`. -/
def CreateInstance (conn : Conn) (ni : PyVal) : Except WbemError PyVal :=
  conn (CreateInstanceCall ni)

/-- Wrapper `DeleteInstance(ip)`: bare call statement. -/
def DeleteInstance (conn : Conn) (ip : PyVal) : Except WbemError PyVal :=
  match conn (DeleteInstanceCall ip) with
  | Except.ok _ => Except.ok PyVal.noneV
  | Except.error e => Except.error e

/-- Wrapper `AssociatorNames(op, ac=None, rc=None, r=None, rr=None)`. -/
def AssociatorNames (conn : Conn) (op : PyVal)
    (ac : Option String := Option.none) (rc : Option String := Option.none)
    (r : Option String := Option.none) (rr : Option String := Option.none) :
    Except WbemError PyVal :=
  conn (AssociatorNamesCall op ac rc r rr)

/-- Wrapper `Associators(op, ac=None, rc=None, r=None, rr=None, iq=None,
ico=None, pl=None)`. -/
def Associators (conn : Conn) (op : PyVal)
    (ac : Option String := Option.none) (rc : Option String := Option.none)
    (r : Option String := Option.none) (rr : Option String := Option.none)
    (iq : Option Bool := Option.none) (ico : Option Bool := Option.none)
    (pl : Option (List String) := Option.none) : Except WbemError PyVal :=
  conn (AssociatorsCall op ac rc r rr iq ico pl)

/-- Wrapper `ReferenceNames(op, rc=None, r=None)`. -/
def ReferenceNames (conn : Conn) (op : PyVal)
    (rc : Option String := Option.none) (r : Option String := Option.none) :
    Except WbemError PyVal :=
  conn (ReferenceNamesCall op rc r)

/-- Wrapper `References(op, rc=None, r=None, iq=None, ico=None, pl=None)`. -/
def References (conn : Conn) (op : PyVal)
    (rc : Option String := Option.none) (r : Option String := Option.none)
    (iq : Option Bool := Option.none) (ico : Option Bool := Option.none)
    (pl : Option (List String) := Option.none) : Except WbemError PyVal :=
  conn (ReferencesCall op rc r iq ico pl)

/-- Wrapper `InvokeMethod(mn, op, *params, **kwparams)`. -/
def InvokeMethod (conn : Conn) (mn : String) (op : PyVal)
    (params : List PyVal := []) (kwparams : List (String × PyVal) := []) :
    Except WbemError PyVal :=
  conn (InvokeMethodCall mn op params kwparams)

/-- Wrapper `EnumerateClassNames(ns=None, cn=None, di=None)`. -/
def EnumerateClassNames (conn : Conn) (ns : Option String := Option.none)
    (cn : Option String := Option.none) (di : Option Bool := Option.none) :
    Except WbemError PyVal :=
  conn (EnumerateClassNamesCall ns cn di)

/-- Wrapper `EnumerateClasses(ns=None, cn=None, di=None, lo=None, iq=None,
ico=None)`. -/
def EnumerateClasses (conn : Conn) (ns : Option String := Option.none)
    (cn : Option String := Option.none) (di : Option Bool := Option.none)
    (lo : Option Bool := Option.none) (iq : Option Bool := Option.none)
    (ico : Option Bool := Option.none) : Except WbemError PyVal :=
  conn (EnumerateClassesCall ns cn di lo iq ico)

/-- Wrapper `GetClass(cn, ns=None, lo=None, iq=None, ico=None, pl=None)`. -/
def GetClass (conn : Conn) (cn : String) (ns : Option String := Option.none)
    (lo : Option Bool := Option.none) (iq : Option Bool := Option.none)
    (ico : Option Bool := Option.none)
    (pl : Option (List String) := Option.none) : Except WbemError PyVal :=
  conn (GetClassCall cn ns lo iq ico pl)

/-- Wrapper `ModifyClass(mc, ns=None)`: `return CONN.ModifyClass(mc, ns)`. -/
def ModifyClass (conn : Conn) (mcl : PyVal)
    (ns : Option String := Option.none) : Except WbemError PyVal :=
  conn (ModifyClassCall mcl ns)

/-- Wrapper `CreateClass(nc, ns=None)`: bare call statement. -/
def CreateClass (conn : Conn) (nc : PyVal)
    (ns : Option String := Option.none) : Except WbemError PyVal :=
  match conn (CreateClassCall nc ns) with
  | Except.ok _ => Except.ok PyVal.noneV
  | Except.error e => Except.error e

/-- Wrapper `DeleteClass(cn, ns=None)`: bare call statement. -/
def DeleteClass (conn : Conn) (cn : String)
    (ns : Option String := Option.none) : Except WbemError PyVal :=
  match conn (DeleteClassCall cn ns) with
  | Except.ok _ => Except.ok PyVal.noneV
  | Except.error e => Except.error e

/-- Wrapper `EnumerateQualifiers(ns=None)`. -/
def EnumerateQualifiers (conn : Conn) (ns : Option String := Option.none) :
    Except WbemError PyVal :=
  conn (EnumerateQualifiersCall ns)

/-- Wrapper `GetQualifier(qn, ns=None)`. -/
def GetQualifier (conn : Conn) (qn : String)
    (ns : Option String := Option.none) : Except WbemError PyVal :=
  conn (GetQualifierCall qn ns)

/-- Wrapper `SetQualifier(qd, ns=None)`: bare call statement. -/
def SetQualifier (conn : Conn) (qd : PyVal)
    (ns : Option String := Option.none) : Except WbemError PyVal :=
  match conn (SetQualifierCall qd ns) with
  | Except.ok _ => Except.ok PyVal.noneV
  | Except.error e => Except.error e

/-- Wrapper `DeleteQualifier(qn, ns=None)`: bare call statement. -/
def DeleteQualifier (conn : Conn) (qn : String)
    (ns : Option String := Option.none) : Except WbemError PyVal :=
  match conn (DeleteQualifierCall qn ns) with
  | Except.ok _ => Except.ok PyVal.noneV
  | Except.error e => Except.error e

/-! ## Short aliases (`ein = EnumerateInstanceNames`, ...) from the source -/

def ein := EnumerateInstanceNames

def ei := EnumerateInstances

def gi := GetInstance

def mi := ModifyInstance

def ci := CreateInstance

def di := DeleteInstance

def an := AssociatorNames

def a := Associators

def rn := ReferenceNames

def r := References

def im := InvokeMethod

def ecn := EnumerateClassNames

def ec := EnumerateClasses

def gc := GetClass

def mc := ModifyClass

def cc := CreateClass

def dc := DeleteClass

def eq := EnumerateQualifiers

def gq := GetQualifier

def sq := SetQualifier

def dq := DeleteQualifier

/-! ## `_remote_connection` -/

/-- The command-line options consumed by `_remote_connection` (argparse
destinations `no_ssl`, `port`, `user`, `password`, `namespace`). -/
structure Opts where
  no_ssl : Bool
  port : Option Int
  user : Option String
  password : Option String
  namespaceOpt : String

/-- The URL `_remote_connection` passes to `WBEMConnection`:
`server` itself when it starts with a slash, otherwise
`'%s://%s' % (proto, server)` with `proto` `https` (or `http` under
`--no-ssl`) and `':%d' % opts.port` appended when a port was given.
`Option.none` models the `IndexError` Python raises on `server[0]` when
`server` is the empty string. -/
def remoteConnectionUrl (server : String) (opts : Opts) : Option String :=
  match server.data with
  | [] => Option.none
  | c :: _ =>
    if c = '/' then Option.some server
    else
      let proto := if opts.no_ssl then "http" else "https"
      let url := proto ++ "://" ++ server
      match opts.port with
      | Option.none => Option.some url
      | Option.some p => Option.some (url ++ ":" ++ toString p)

/-- The credentials `_remote_connection` passes to `WBEMConnection`:
starting from `creds = None`, when a user was given without a password the
password is read from the prompt (`prompted`), and when a user or a password
is present the pair `(opts.user, opts.password)` becomes the credentials. -/
def remoteConnectionCreds (user password : Option String) (prompted : String) :
    Option (Option String × Option String) :=
  let password := if user.isSome && password.isNone
    then Option.some prompted else password
  if user.isSome || password.isSome
  then Option.some (user, password) else Option.none

/-! ## `_get_connection_info` -/

/-- The connection attributes `_get_connection_info` reads from `CONN`. -/
structure ConnAttrs where
  url : String
  creds : Option (Option String × Option String)
  default_namespace : String

/-- Python `'%s' % x` for a string-or-None `x`. -/
def pyStrOfOpt : Option String → String
  | Option.none => "None"
  | Option.some s => s

/-- `_get_connection_info()`: `'Connected to %s' % CONN.url`, then either
`' as %s' % CONN.creds[0]` or `' without credentials'`, then
`', default namespace %s' % CONN.default_namespace`. -/
def get_connection_info (c : ConnAttrs) : String :=
  let info := "Connected to " ++ c.url
  let info := match c.creds with
    | Option.some cr => info ++ " as " ++ pyStrOfOpt cr.1
    | Option.none => info ++ " without credentials"
  info ++ ", default namespace " ++ c.default_namespace

/-! ## Pass-through calls as the specification describes them

The specification says each wrapper is a direct pass-through: it invokes the
connection method of the same name with the caller's arguments unchanged.
The two definitions below spell that out, in the wrappers' own argument
layout, for the two class-enumeration wrappers; they are the comparison
points for the wrappers' actual calls. -/

/-- Pass-through call for `EnumerateClassNames` as the specification words
it: the `ClassName` keyword argument receives the caller's `cn`. -/
def EnumerateClassNamesSpecCall (ns cn : Option String) (di : Option Bool) :
    ConnCall :=
  { method := MethodName.EnumerateClassNames
    posArgs := [PyVal.ofOptStr ns]
    kwArgs := [("ClassName", PyVal.ofOptStr cn),
               ("DeepInheritance", PyVal.ofOptBool di)] }

/-- Pass-through call for `EnumerateClasses` as the specification words it:
the method invoked on the connection is `EnumerateClasses` itself. -/
def EnumerateClassesSpecCall (ns cn : Option String) (di lo iq ico : Option Bool) :
    ConnCall :=
  { method := MethodName.EnumerateClasses
    posArgs := [PyVal.ofOptStr ns]
    kwArgs := [("ClassName", PyVal.ofOptStr cn),
               ("DeepInheritance", PyVal.ofOptBool di),
               ("LocalOnly", PyVal.ofOptBool lo),
               ("IncludeQualifiers", PyVal.ofOptBool iq),
               ("IncludeClassOrigin", PyVal.ofOptBool ico)] }

/-! ## Theorems -/

/-- Claim C1: the claim that every wrapper invokes the same-named connection
method with the caller's arguments unchanged fails on the code: at
`EnumerateClassNames(ns='root/cimv2', cn=None, di=None)` the wrapper's call
differs from the pass-through call (it forwards `ns` as `ClassName`), and
the `EnumerateClasses` wrapper invokes the connection's
`EnumerateClassNames` method, not `EnumerateClasses`. -/
theorem wrapper_passthrough_fails_on_class_enumeration :
    EnumerateClassNamesCall (Option.some "root/cimv2") Option.none Option.none
        ≠ EnumerateClassNamesSpecCall (Option.some "root/cimv2") Option.none
            Option.none
    ∧ (EnumerateClassesCall Option.none (Option.some "CIM_Foo") Option.none
          Option.none Option.none Option.none).method
        ≠ MethodName.EnumerateClasses := by
  decide

/-- Claim C2: at `EnumerateClassNames(ns='root/cimv2', cn=None, di=None)`
the code forwards `ClassName='root/cimv2'` — the namespace, not `None` —
to the connection, against the claim (and the wrapper's own docstring),
while `DeepInheritance` is indeed forwarded as `None`. -/
theorem enumerateClassNames_forwards_namespace_as_ClassName :
    List.lookup "ClassName"
        (EnumerateClassNamesCall (Option.some "root/cimv2") Option.none
            Option.none).kwArgs
      = Option.some (PyVal.str "root/cimv2")
    ∧ PyVal.str "root/cimv2" ≠ PyVal.noneV
    ∧ List.lookup "DeepInheritance"
        (EnumerateClassNamesCall (Option.some "root/cimv2") Option.none
            Option.none).kwArgs
      = Option.some PyVal.noneV := by
  decide

/-- Claim C3: the `EnumerateClasses` wrapper's body invokes the connection's
`EnumerateClassNames` method (with the caller's cn, di, lo, iq, ico options),
not the distinct `EnumerateClasses` intrinsic operation the claim (and the
wrapper's own name and docstring) require. -/
theorem enumerateClasses_invokes_EnumerateClassNames :
    (EnumerateClassesCall (Option.some "root/cimv2") (Option.some "CIM_Foo")
        (Option.some true) (Option.some false) (Option.some true)
        (Option.some false)).method
      = MethodName.EnumerateClassNames
    ∧ MethodName.EnumerateClassNames ≠ MethodName.EnumerateClasses := by
  decide

/-- Claim C4: in every wrapper, each optional parameter of the recognized
kinds (namespace override, LocalOnly, DeepInheritance, IncludeQualifiers,
IncludeClassOrigin, PropertyList, association/role filters) defaults to
`None`, and when left unset it is forwarded to the connection as the value
`None` — every keyword argument carries `None` and the positional namespace
slot is `None`. -/
theorem unset_options_forwarded_as_none :
    ∀ (cn qn : String) (ip miv op mcl nc qd : PyVal),
      (EnumerateInstanceNamesCall cn Option.none).posArgs
          = [PyVal.str cn, PyVal.noneV]
      ∧ (EnumerateInstancesCall cn Option.none Option.none Option.none
            Option.none Option.none Option.none).kwValuesAllNone = true
      ∧ (EnumerateInstancesCall cn Option.none Option.none Option.none
            Option.none Option.none Option.none).posArgs
          = [PyVal.str cn, PyVal.noneV]
      ∧ (GetInstanceCall ip Option.none Option.none Option.none
            Option.none).kwValuesAllNone = true
      ∧ (ModifyInstanceCall miv Option.none Option.none).kwValuesAllNone
          = true
      ∧ (AssociatorNamesCall op Option.none Option.none Option.none
            Option.none).kwValuesAllNone = true
      ∧ (AssociatorsCall op Option.none Option.none Option.none Option.none
            Option.none Option.none Option.none).kwValuesAllNone = true
      ∧ (ReferenceNamesCall op Option.none Option.none).kwValuesAllNone = true
      ∧ (ReferencesCall op Option.none Option.none Option.none Option.none
            Option.none).kwValuesAllNone = true
      ∧ (EnumerateClassNamesCall Option.none Option.none
            Option.none).kwValuesAllNone = true
      ∧ (EnumerateClassNamesCall Option.none Option.none Option.none).posArgs
          = [PyVal.noneV]
      ∧ (EnumerateClassesCall Option.none Option.none Option.none Option.none
            Option.none Option.none).kwValuesAllNone = true
      ∧ (EnumerateClassesCall Option.none Option.none Option.none Option.none
            Option.none Option.none).posArgs = [PyVal.noneV]
      ∧ (GetClassCall cn Option.none Option.none Option.none Option.none
            Option.none).kwValuesAllNone = true
      ∧ (GetClassCall cn Option.none Option.none Option.none Option.none
            Option.none).posArgs = [PyVal.str cn, PyVal.noneV]
      ∧ (ModifyClassCall mcl Option.none).posArgs = [mcl, PyVal.noneV]
      ∧ (CreateClassCall nc Option.none).posArgs = [nc, PyVal.noneV]
      ∧ (DeleteClassCall cn Option.none).posArgs
          = [PyVal.str cn, PyVal.noneV]
      ∧ (EnumerateQualifiersCall Option.none).posArgs = [PyVal.noneV]
      ∧ (GetQualifierCall qn Option.none).posArgs
          = [PyVal.str qn, PyVal.noneV]
      ∧ (SetQualifierCall qd Option.none).posArgs = [qd, PyVal.noneV]
      ∧ (DeleteQualifierCall qn Option.none).posArgs
          = [PyVal.str qn, PyVal.noneV] := by
  intro cn qn ip miv op mcl nc qd
  exact ⟨rfl, rfl, rfl, rfl, rfl, rfl, rfl, rfl, rfl, rfl, rfl, rfl, rfl,
    rfl, rfl, rfl, rfl, rfl, rfl, rfl, rfl, rfl⟩

/-- Claim C5: for a nonempty server string, `_remote_connection` passes the
server verbatim as the URL when it starts with a slash; otherwise the URL is
`https://` (or `http://` under the no-ssl opt-out) followed by the server,
with `:port` appended when a port was supplied. -/
theorem remoteConnectionUrl_spec :
    ∀ (server : String) (opts : Opts), server ≠ "" →
      (server.data.head? = Option.some '/' →
        remoteConnectionUrl server opts = Option.some server)
      ∧ (server.data.head? ≠ Option.some '/' → opts.port = Option.none →
        remoteConnectionUrl server opts
          = Option.some
              ((if opts.no_ssl then "http" else "https") ++ "://" ++ server))
      ∧ (server.data.head? ≠ Option.some '/' →
          ∀ p, opts.port = Option.some p →
        remoteConnectionUrl server opts
          = Option.some
              ((if opts.no_ssl then "http" else "https") ++ "://" ++ server
                ++ ":" ++ toString p)) := by
  intro server opts hne
  rcases hd : server.data with _ | ⟨c, rest⟩
  · exact absurd (String.ext hd) hne
  · refine ⟨?_, ?_, ?_⟩
    · intro hslash
      simp only [List.head?] at hslash
      have hc : c = '/' := by simpa using hslash
      simp [remoteConnectionUrl, hd, hc]
    · intro hslash hport
      simp only [List.head?] at hslash
      have hc : ¬(c = '/') := by simpa using hslash
      simp [remoteConnectionUrl, hd, hc, hport]
    · intro hslash p hport
      simp only [List.head?] at hslash
      have hc : ¬(c = '/') := by simpa using hslash
      simp [remoteConnectionUrl, hd, hc, hport]

/-- Witness for claim C5: the connection URL for server `localhost` with SSL
on and port 15989 is `https://localhost:15989`. -/
theorem remoteConnectionUrl_spec_witness :
    remoteConnectionUrl "localhost"
        { no_ssl := false, port := Option.some 15989, user := Option.none,
          password := Option.none, namespaceOpt := "root/cimv2" }
      = Option.some "https://localhost:15989" := by
  have h := (remoteConnectionUrl_spec "localhost"
      { no_ssl := false, port := Option.some 15989, user := Option.none,
        password := Option.none, namespaceOpt := "root/cimv2" }
      (by decide)).2.2 (by decide) 15989 rfl
  exact h.trans (by decide)

/-- Claim C7: `_get_connection_info` reads only the connection's url, creds
and default_namespace; its result names the url and the default namespace,
adds `as <user>` when credentials are present, and `without credentials`
when they are absent. -/
theorem get_connection_info_spec :
    ∀ (url dns : String) (user pw : Option String),
      get_connection_info
          { url := url, creds := Option.some (user, pw),
            default_namespace := dns }
        = "Connected to " ++ url ++ " as " ++ pyStrOfOpt user
            ++ ", default namespace " ++ dns
      ∧ get_connection_info
          { url := url, creds := Option.none, default_namespace := dns }
        = "Connected to " ++ url ++ " without credentials"
            ++ ", default namespace " ++ dns := by
  intro url dns user pw
  exact ⟨rfl, rfl⟩

/-- Claim C8: each short alias is bound to the identical function as its
long-named counterpart, so calls through the alias and through the long
name agree on every argument assignment. -/
theorem aliases_eq_long_names :
    ein = EnumerateInstanceNames ∧ ei = EnumerateInstances
    ∧ gi = GetInstance ∧ mi = ModifyInstance ∧ ci = CreateInstance
    ∧ di = DeleteInstance ∧ an = AssociatorNames ∧ a = Associators
    ∧ rn = ReferenceNames ∧ r = References ∧ im = InvokeMethod
    ∧ ecn = EnumerateClassNames ∧ ec = EnumerateClasses ∧ gc = GetClass
    ∧ mc = ModifyClass ∧ cc = CreateClass ∧ dc = DeleteClass
    ∧ eq = EnumerateQualifiers ∧ gq = GetQualifier ∧ sq = SetQualifier
    ∧ dq = DeleteQualifier :=
  ⟨rfl, rfl, rfl, rfl, rfl, rfl, rfl, rfl, rfl, rfl, rfl, rfl, rfl, rfl,
    rfl, rfl, rfl, rfl, rfl, rfl, rfl⟩

/-- Claim C9: the credentials handed to `WBEMConnection` are absent exactly
when both the user and the password options are `None` after prompting;
whenever at least one is given they are the pair `(user, password)` (with
the password replaced by the prompted one when only a user was given) — in
particular a password without a username yields `(None, password)`. -/
theorem remoteConnectionCreds_spec :
    ∀ (user password : Option String) (prompted : String),
      (remoteConnectionCreds user password prompted = Option.none
        ↔ user = Option.none ∧ password = Option.none)
      ∧ (user = Option.none → ∀ p, password = Option.some p →
          remoteConnectionCreds user password prompted
            = Option.some (Option.none, Option.some p))
      ∧ ((user ≠ Option.none ∨ password ≠ Option.none) →
          remoteConnectionCreds user password prompted
            = Option.some (user,
                if user.isSome && password.isNone
                then Option.some prompted else password)) := by
  intro user password prompted
  rcases user with _ | u <;> rcases password with _ | p <;>
    simp [remoteConnectionCreds]

/-- Witness for claim C9: a password given without a username yields the
credentials pair `(None, password)`, not absent credentials. -/
theorem remoteConnectionCreds_spec_witness :
    remoteConnectionCreds Option.none (Option.some "penny42") "ignored"
      = Option.some (Option.none, Option.some "penny42") :=
  (remoteConnectionCreds_spec Option.none (Option.some "penny42")
    "ignored").2.1 rfl "penny42" rfl

/-- Claim C6: for every wrapper and every error raised by the connection
method it invokes, the wrapper performs no retry, caching or transformation:
the error propagates unchanged to the caller, so a failed call produces no
result value. -/
theorem errors_propagate_unchanged :
    ∀ (conn : Conn) (e : WbemError) (cn qn mn : String)
      (ns cno ac rc ro rr : Option String) (lo dio iq ico : Option Bool)
      (pl : Option (List String)) (ip miv ni op mcl nc qd : PyVal)
      (params : List PyVal) (kwparams : List (String × PyVal)),
      (conn (EnumerateInstanceNamesCall cn ns) = Except.error e →
        EnumerateInstanceNames conn cn ns = Except.error e)
      ∧ (conn (EnumerateInstancesCall cn ns lo dio iq ico pl)
            = Except.error e →
        EnumerateInstances conn cn ns lo dio iq ico pl = Except.error e)
      ∧ (conn (GetInstanceCall ip lo iq ico pl) = Except.error e →
        GetInstance conn ip lo iq ico pl = Except.error e)
      ∧ (conn (ModifyInstanceCall miv iq pl) = Except.error e →
        ModifyInstance conn miv iq pl = Except.error e)
      ∧ (conn (CreateInstanceCall ni) = Except.error e →
        CreateInstance conn ni = Except.error e)
      ∧ (conn (DeleteInstanceCall ip) = Except.error e →
        DeleteInstance conn ip = Except.error e)
      ∧ (conn (AssociatorNamesCall op ac rc ro rr) = Except.error e →
        AssociatorNames conn op ac rc ro rr = Except.error e)
      ∧ (conn (AssociatorsCall op ac rc ro rr iq ico pl) = Except.error e →
        Associators conn op ac rc ro rr iq ico pl = Except.error e)
      ∧ (conn (ReferenceNamesCall op rc ro) = Except.error e →
        ReferenceNames conn op rc ro = Except.error e)
      ∧ (conn (ReferencesCall op rc ro iq ico pl) = Except.error e →
        References conn op rc ro iq ico pl = Except.error e)
      ∧ (conn (InvokeMethodCall mn op params kwparams) = Except.error e →
        InvokeMethod conn mn op params kwparams = Except.error e)
      ∧ (conn (EnumerateClassNamesCall ns cno dio) = Except.error e →
        EnumerateClassNames conn ns cno dio = Except.error e)
      ∧ (conn (EnumerateClassesCall ns cno dio lo iq ico) = Except.error e →
        EnumerateClasses conn ns cno dio lo iq ico = Except.error e)
      ∧ (conn (GetClassCall cn ns lo iq ico pl) = Except.error e →
        GetClass conn cn ns lo iq ico pl = Except.error e)
      ∧ (conn (ModifyClassCall mcl ns) = Except.error e →
        ModifyClass conn mcl ns = Except.error e)
      ∧ (conn (CreateClassCall nc ns) = Except.error e →
        CreateClass conn nc ns = Except.error e)
      ∧ (conn (DeleteClassCall cn ns) = Except.error e →
        DeleteClass conn cn ns = Except.error e)
      ∧ (conn (EnumerateQualifiersCall ns) = Except.error e →
        EnumerateQualifiers conn ns = Except.error e)
      ∧ (conn (GetQualifierCall qn ns) = Except.error e →
        GetQualifier conn qn ns = Except.error e)
      ∧ (conn (SetQualifierCall qd ns) = Except.error e →
        SetQualifier conn qd ns = Except.error e)
      ∧ (conn (DeleteQualifierCall qn ns) = Except.error e →
        DeleteQualifier conn qn ns = Except.error e) := by
  intro conn e cn qn mn ns cno ac rc ro rr lo dio iq ico pl ip miv ni op
    mcl nc qd params kwparams
  refine ⟨?_, ?_, ?_, ?_, ?_, ?_, ?_, ?_, ?_, ?_, ?_, ?_, ?_, ?_, ?_, ?_,
    ?_, ?_, ?_, ?_, ?_⟩ <;>
      intro h <;>
      simp [EnumerateInstanceNames, EnumerateInstances, GetInstance,
        ModifyInstance, CreateInstance, DeleteInstance, AssociatorNames,
        Associators, ReferenceNames, References, InvokeMethod,
        EnumerateClassNames, EnumerateClasses, GetClass, ModifyClass,
        CreateClass, DeleteClass, EnumerateQualifiers, GetQualifier,
        SetQualifier, DeleteQualifier, h]

/-- Witness for claim C6: a connection whose methods all raise a timeout
error makes the `EnumerateInstanceNames` wrapper surface exactly that
error. -/
theorem errors_propagate_unchanged_witness :
    EnumerateInstanceNames (fun _ => Except.error "timeout") "CIM_Foo"
        Option.none
      = Except.error "timeout" :=
  (errors_propagate_unchanged (fun _ => Except.error "timeout") "timeout"
    "CIM_Foo" "q" "m" Option.none Option.none Option.none Option.none
    Option.none Option.none Option.none Option.none Option.none Option.none
    Option.none PyVal.noneV PyVal.noneV PyVal.noneV PyVal.noneV PyVal.noneV
    PyVal.noneV PyVal.noneV [] []).1 rfl

/-- Claim C10: on a successful connection call, the wrappers ModifyInstance,
DeleteInstance, CreateClass, DeleteClass, SetQualifier and DeleteQualifier
discard the connection method's result and return `None`, while ModifyClass
and every other wrapper return the connection method's result. -/
theorem wrapper_return_values :
    ∀ (conn : Conn) (v : PyVal) (cn qn mn : String)
      (ns cno ac rc ro rr : Option String) (lo dio iq ico : Option Bool)
      (pl : Option (List String)) (ip miv ni op mcl nc qd : PyVal)
      (params : List PyVal) (kwparams : List (String × PyVal)),
      (conn (EnumerateInstanceNamesCall cn ns) = Except.ok v →
        EnumerateInstanceNames conn cn ns = Except.ok v)
      ∧ (conn (EnumerateInstancesCall cn ns lo dio iq ico pl) = Except.ok v →
        EnumerateInstances conn cn ns lo dio iq ico pl = Except.ok v)
      ∧ (conn (GetInstanceCall ip lo iq ico pl) = Except.ok v →
        GetInstance conn ip lo iq ico pl = Except.ok v)
      ∧ (conn (ModifyInstanceCall miv iq pl) = Except.ok v →
        ModifyInstance conn miv iq pl = Except.ok PyVal.noneV)
      ∧ (conn (CreateInstanceCall ni) = Except.ok v →
        CreateInstance conn ni = Except.ok v)
      ∧ (conn (DeleteInstanceCall ip) = Except.ok v →
        DeleteInstance conn ip = Except.ok PyVal.noneV)
      ∧ (conn (AssociatorNamesCall op ac rc ro rr) = Except.ok v →
        AssociatorNames conn op ac rc ro rr = Except.ok v)
      ∧ (conn (AssociatorsCall op ac rc ro rr iq ico pl) = Except.ok v →
        Associators conn op ac rc ro rr iq ico pl = Except.ok v)
      ∧ (conn (ReferenceNamesCall op rc ro) = Except.ok v →
        ReferenceNames conn op rc ro = Except.ok v)
      ∧ (conn (ReferencesCall op rc ro iq ico pl) = Except.ok v →
        References conn op rc ro iq ico pl = Except.ok v)
      ∧ (conn (InvokeMethodCall mn op params kwparams) = Except.ok v →
        InvokeMethod conn mn op params kwparams = Except.ok v)
      ∧ (conn (EnumerateClassNamesCall ns cno dio) = Except.ok v →
        EnumerateClassNames conn ns cno dio = Except.ok v)
      ∧ (conn (EnumerateClassesCall ns cno dio lo iq ico) = Except.ok v →
        EnumerateClasses conn ns cno dio lo iq ico = Except.ok v)
      ∧ (conn (GetClassCall cn ns lo iq ico pl) = Except.ok v →
        GetClass conn cn ns lo iq ico pl = Except.ok v)
      ∧ (conn (ModifyClassCall mcl ns) = Except.ok v →
        ModifyClass conn mcl ns = Except.ok v)
      ∧ (conn (CreateClassCall nc ns) = Except.ok v →
        CreateClass conn nc ns = Except.ok PyVal.noneV)
      ∧ (conn (DeleteClassCall cn ns) = Except.ok v →
        DeleteClass conn cn ns = Except.ok PyVal.noneV)
      ∧ (conn (EnumerateQualifiersCall ns) = Except.ok v →
        EnumerateQualifiers conn ns = Except.ok v)
      ∧ (conn (GetQualifierCall qn ns) = Except.ok v →
        GetQualifier conn qn ns = Except.ok v)
      ∧ (conn (SetQualifierCall qd ns) = Except.ok v →
        SetQualifier conn qd ns = Except.ok PyVal.noneV)
      ∧ (conn (DeleteQualifierCall qn ns) = Except.ok v →
        DeleteQualifier conn qn ns = Except.ok PyVal.noneV) := by
  intro conn v cn qn mn ns cno ac rc ro rr lo dio iq ico pl ip miv ni op
    mcl nc qd params kwparams
  refine ⟨?_, ?_, ?_, ?_, ?_, ?_, ?_, ?_, ?_, ?_, ?_, ?_, ?_, ?_, ?_, ?_,
    ?_, ?_, ?_, ?_, ?_⟩ <;>
      intro h <;>
      simp [EnumerateInstanceNames, EnumerateInstances, GetInstance,
        ModifyInstance, CreateInstance, DeleteInstance, AssociatorNames,
        Associators, ReferenceNames, References, InvokeMethod,
        EnumerateClassNames, EnumerateClasses, GetClass, ModifyClass,
        CreateClass, DeleteClass, EnumerateQualifiers, GetQualifier,
        SetQualifier, DeleteQualifier, h]

/-- Witness for claim C10: on a connection whose methods all succeed with a
result value, `ModifyInstance` returns `None` while `ModifyClass` returns
that result value. -/
theorem wrapper_return_values_witness :
    ModifyInstance (fun _ => Except.ok (PyVal.str "res")) PyVal.noneV
        Option.none Option.none
      = Except.ok PyVal.noneV
    ∧ ModifyClass (fun _ => Except.ok (PyVal.str "res")) PyVal.noneV
        Option.none
      = Except.ok (PyVal.str "res") :=
  ⟨(wrapper_return_values (fun _ => Except.ok (PyVal.str "res"))
      (PyVal.str "res") "CIM_Foo" "q" "m" Option.none Option.none Option.none
      Option.none Option.none Option.none Option.none Option.none Option.none
      Option.none Option.none PyVal.noneV PyVal.noneV PyVal.noneV PyVal.noneV
      PyVal.noneV PyVal.noneV PyVal.noneV [] []).2.2.2.1 rfl,
   (wrapper_return_values (fun _ => Except.ok (PyVal.str "res"))
      (PyVal.str "res") "CIM_Foo" "q" "m" Option.none Option.none Option.none
      Option.none Option.none Option.none Option.none Option.none Option.none
      Option.none Option.none PyVal.noneV PyVal.noneV PyVal.noneV PyVal.noneV
      PyVal.noneV PyVal.noneV PyVal.noneV [] []).2.2.2.2.2.2.2.2.2.2.2.2.2.2.1
      rfl⟩

end Wbemcli

